import Mathlib

/-!
Shallow embedding of the VeSync integration
(`homeassistant/components/vesync/__init__.py` and
`homeassistant/components/vesync/common.py`).

Devices are handles owned by the external manager; the integration only
reads `device_type`, calls `is_dimmable()` on switch handles, and compares
handles for identity when diffing buckets.  We model a handle as a record
with decidable equality.
-/

namespace VeSync

/-- A device handle as seen by the integration: the cloud id, the model
string `device_type`, and the result of the per-instance `is_dimmable()`
call used for devices on the manager's switches list. -/
structure Device where
  cid : String
  device_type : String
  dimmable : Bool
deriving DecidableEq, Repr

/-- The manager's four raw device lists, as refreshed by `manager.update()`. -/
structure Mgr where
  fans : List Device
  bulbs : List Device
  outlets : List Device
  switches : List Device
deriving DecidableEq, Repr

/-- The `devices` dict built by `_async_process_devices`, with one field per
bucket key, in the dict's insertion order (`VS_SWITCHES`, `VS_FANS`,
`VS_LIGHTS`, `VS_SENSORS`, `VS_HUMIDIFIERS`, `VS_NUMBERS`,
`VS_BINARY_SENSORS`). -/
structure Buckets where
  switches : List Device
  fans : List Device
  lights : List Device
  sensors : List Device
  humidifiers : List Device
  numbers : List Device
  binary_sensors : List Device
deriving DecidableEq, Repr

/-- The all-empty bucket dict that `_async_process_devices` starts from. -/
def emptyBuckets : Buckets := ⟨[], [], [], [], [], [], []⟩

/-- One iteration of the `for fan in manager.fans` loop of
`_async_process_devices`: route to humidifiers or fans by
`DEVICE_HELPER.is_humidifier(fan.device_type)` (passed in as the predicate
`ih`), then append to numbers, switches, lights, sensors and
binary_sensors unconditionally. -/
def processFan (ih : String → Bool) (b : Buckets) (fan : Device) : Buckets :=
  let b :=
    if ih fan.device_type then
      { b with humidifiers := b.humidifiers ++ [fan] }
    else
      { b with fans := b.fans ++ [fan] }
  { b with
    numbers := b.numbers ++ [fan]
    switches := b.switches ++ [fan]
    lights := b.lights ++ [fan]
    sensors := b.sensors ++ [fan]
    binary_sensors := b.binary_sensors ++ [fan] }

/-- One iteration of the `for switch in manager.switches` loop of
`_async_process_devices`: non-dimmable handles go to the switches bucket,
dimmable ones to the lights bucket. -/
def processSwitch (b : Buckets) (sw : Device) : Buckets :=
  if !sw.dimmable then
    { b with switches := b.switches ++ [sw] }
  else
    { b with lights := b.lights ++ [sw] }

/-- The text of one `_LOGGER.info("%d VeSync <category> found", n)` line. -/
def logCount (n : Nat) (category : String) : String :=
  toString n ++ " VeSync " ++ category ++ " found"

/-- `_async_process_devices` after the `manager.update()` poll succeeded:
builds the bucket dict from the manager's four lists and returns it with
the informational log lines in emission order.  Python's `if manager.fans:`
truthiness test on a list is the non-emptiness test. -/
def async_process_devices (ih : String → Bool) (m : Mgr) : Buckets × List String :=
  let devices := emptyBuckets
  let step1 : Buckets × List String :=
    if m.fans = [] then (devices, [])
    else
      let d := m.fans.foldl (processFan ih) devices
      (d, [logCount d.fans.length "fans", logCount d.humidifiers.length "humidifiers"])
  let step2 : Buckets × List String :=
    if m.bulbs = [] then step1
    else
      ({ step1.1 with lights := step1.1.lights ++ m.bulbs },
       step1.2 ++ [logCount m.bulbs.length "lights"])
  let step3 : Buckets × List String :=
    if m.outlets = [] then step2
    else
      ({ step2.1 with
          switches := step2.1.switches ++ m.outlets
          sensors := step2.1.sensors ++ m.outlets },
       step2.2 ++ [logCount m.outlets.length "outlets"])
  if m.switches = [] then step3
  else
    (m.switches.foldl processSwitch step3.1,
     step3.2 ++ [logCount m.switches.length "switches"])

/-- `_add_new_devices(platform, domain)` of `_async_new_device_discovery`:
`new_devices = list(set(dev_dict.get(domain, [])).difference(old_devices))`
(modelled order-canonically as dedup-then-filter), then if non-empty either
extend and send one discovery signal (stored list already non-empty) or
extend and create one forward-setup task (stored list was empty).
Returns (stored list afterwards, signals sent, tasks created). -/
def addNewDevices (platform domain : String) (fresh old : List Device) :
    List Device × List (String × List Device) × List String :=
  let new_devices := fresh.dedup.filter fun d => decide (d ∉ old)
  if new_devices = [] then (old, [], [])
  else if old = [] then (old ++ new_devices, [], [platform])
  else (old ++ new_devices, [("vesync_discovery_" ++ domain, new_devices)], [])

/-- Outcome of a reconciliation pass: the stored bucket lists afterwards,
the dispatcher signals sent and the forward-setup tasks created. -/
structure DiscoveryOut where
  state : Buckets
  signals : List (String × List Device)
  tasks : List String
deriving DecidableEq, Repr

/-- The `for platform, domain in PLATFORMS.items(): _add_new_devices(...)`
loop of `_async_new_device_discovery`, applied to the freshly classified
buckets `dd` and stored buckets `st`, in the `PLATFORMS` dict's insertion
order (binary_sensor, fan, humidifier, light, number, sensor, switch).
`dev_dict.get(domain, [])` resolves to the corresponding field of `dd`. -/
def reconcile (dd st : Buckets) : DiscoveryOut :=
  let r1 := addNewDevices "binary_sensor" "binary_sensors" dd.binary_sensors st.binary_sensors
  let r2 := addNewDevices "fan" "fans" dd.fans st.fans
  let r3 := addNewDevices "humidifier" "humidifiers" dd.humidifiers st.humidifiers
  let r4 := addNewDevices "light" "lights" dd.lights st.lights
  let r5 := addNewDevices "number" "numbers" dd.numbers st.numbers
  let r6 := addNewDevices "sensor" "sensors" dd.sensors st.sensors
  let r7 := addNewDevices "switch" "switches" dd.switches st.switches
  { state :=
      { binary_sensors := r1.1, fans := r2.1, humidifiers := r3.1, lights := r4.1,
        numbers := r5.1, sensors := r6.1, switches := r7.1 }
    signals := r1.2.1 ++ r2.2.1 ++ r3.2.1 ++ r4.2.1 ++ r5.2.1 ++ r6.2.1 ++ r7.2.1
    tasks := r1.2.2 ++ r2.2.2 ++ r3.2.2 ++ r4.2.2 ++ r5.2.2 ++ r6.2.2 ++ r7.2.2 }

/-- `_async_new_device_discovery`: poll the manager (`poll` is the result
of the `manager.update()` executor job — `Except.error` models the poll
raising), classify, then reconcile each bucket.  When the poll raises, the
exception propagates before any stored state is touched. -/
def async_new_device_discovery (ih : String → Bool) (poll : Except Unit Mgr)
    (st : Buckets) : Except Unit DiscoveryOut :=
  match poll with
  | .error e => .error e
  | .ok m => .ok (reconcile (async_process_devices ih m).1 st)

/-- The stored bucket lists after one reconciliation pass: unchanged when
the poll raised (the exception escapes before any mutation). -/
def discoveryState (ih : String → Bool) (poll : Except Unit Mgr) (st : Buckets) : Buckets :=
  match async_new_device_discovery ih poll st with
  | .error _ => st
  | .ok o => o.state

/-- The dispatcher signals sent during one reconciliation pass (none when
the poll raised). -/
def discoverySignals (ih : String → Bool) (poll : Except Unit Mgr) (st : Buckets) :
    List (String × List Device) :=
  match async_new_device_discovery ih poll st with
  | .error _ => []
  | .ok o => o.signals

/-- The forward-setup tasks created during one reconciliation pass (none
when the poll raised). -/
def discoveryTasks (ih : String → Bool) (poll : Except Unit Mgr) (st : Buckets) : List String :=
  match async_new_device_discovery ih poll st with
  | .error _ => []
  | .ok o => o.tasks

/-- A sequence of reconciliation passes, each with its own poll outcome. -/
def runPasses (ih : String → Bool) (polls : List (Except Unit Mgr)) (st : Buckets) : Buckets :=
  polls.foldl (fun s p => discoveryState ih p s) st

/-- A value stored under `hass.data` / `hass.data[DOMAIN]`: the manager
handle, a bucket list, or a nested dict (association list by string key,
insertion-ordered, keys unique). -/
inductive DVal where
  | mgr (m : Mgr)
  | devs (l : List Device)
  | sub (d : List (String × DVal))

/-- Dict lookup: first binding for the key, `none` when absent. -/
def lookupKey (d : List (String × DVal)) (k : String) : Option DVal :=
  match d with
  | [] => none
  | (k₀, v) :: rest => if k₀ = k then some v else lookupKey rest k

/-- `dict.pop(k)`: drop the binding for `k` (keys are unique). -/
def removeKey (d : List (String × DVal)) (k : String) : List (String × DVal) :=
  d.filter fun kv => decide (kv.1 ≠ k)

/-- `get_domain_data(hass, config_entry, key)` from `common.py`, with
`domainData` the value of `hass.data[DOMAIN]` (`none` when `DOMAIN not in
hass.data`).  Returns `.ok none` when the guard fails, `.ok (some v)` on a
successful nested read, and `.error ()` when the unguarded
`hass.data[DOMAIN][entry_id][key]` indexing raises (missing `key`, or the
entry value is not a dict). -/
def get_domain_data (domainData : Option (List (String × DVal))) (entry_id key : String) :
    Except Unit (Option DVal) :=
  match domainData with
  | none => .ok none
  | some d =>
    match lookupKey d entry_id with
    | none => .ok none
    | some (DVal.sub entryData) =>
      match lookupKey entryData key with
      | some v => .ok (some v)
      | none => .error ()
    | some _ => .error ()

/-- The `PLATFORMS` dict of `__init__.py` in insertion order:
platform name paired with its bucket key. -/
def PLATFORMS : List (String × String) :=
  [("binary_sensor", "binary_sensors"), ("fan", "fans"), ("humidifier", "humidifiers"),
   ("light", "lights"), ("number", "numbers"), ("sensor", "sensors"), ("switch", "switches")]

/-- `devices[domain]` for the bucket keys used by `PLATFORMS`. -/
def bucketOf (b : Buckets) (domain : String) : List Device :=
  if domain = "binary_sensors" then b.binary_sensors
  else if domain = "fans" then b.fans
  else if domain = "humidifiers" then b.humidifiers
  else if domain = "lights" then b.lights
  else if domain = "numbers" then b.numbers
  else if domain = "sensors" then b.sensors
  else if domain = "switches" then b.switches
  else []

/-- Observable outcome of `async_setup_entry`: the boolean return value,
the error-level log lines, the dict stored at `hass.data[DOMAIN]` (`none`
when it was never created), whether `manager.update()` was polled, the
platforms forwarded for setup, and whether the update_devices service got
registered. -/
structure SetupOutcome where
  ok : Bool
  errorLogs : List String
  domainData : Option (List (String × DVal))
  polled : Bool
  tasks : List String
  serviceRegistered : Bool

/-- `async_setup_entry`, with `login` the result of the `manager.login`
executor job and `m` the manager state after `manager.update()`.  On login
failure it logs and returns `False` before any state is created.  On
success it stores the manager under `hass.data[DOMAIN][VS_MANAGER]` and,
for each platform in `PLATFORMS` order, stores the bucket list under
`hass.data[DOMAIN][domain]` (an empty list stays empty), forwarding setup
for platforms with a non-empty bucket, then registers the service. -/
def async_setup_entry (ih : String → Bool) (login : Bool) (m : Mgr) : SetupOutcome :=
  if !login then
    { ok := false
      errorLogs := ["Unable to login to the VeSync server"]
      domainData := none
      polled := false
      tasks := []
      serviceRegistered := false }
  else
    let dd := (async_process_devices ih m).1
    { ok := true
      errorLogs := []
      domainData :=
        some (("manager", DVal.mgr m) ::
          PLATFORMS.map fun pd => (pd.2, DVal.devs (bucketOf dd pd.2)))
      polled := true
      tasks := (PLATFORMS.filter fun pd => !(bucketOf dd pd.2).isEmpty).map Prod.fst
      serviceRegistered := true }

/-- `async_unload_entry`, with `unload_ok` the result of
`async_unload_platforms` and `domainData` the dict at `hass.data[DOMAIN]`.
Pops `entry_id` only when unload succeeded and the key is present; returns
`unload_ok` and the dict afterwards. -/
def async_unload_entry (domainData : List (String × DVal)) (entry_id : String)
    (unload_ok : Bool) : Bool × List (String × DVal) :=
  if unload_ok && (lookupKey domainData entry_id).isSome then
    (unload_ok, removeKey domainData entry_id)
  else
    (unload_ok, domainData)

/-- A Python value held in a device's telemetry/config dicts; `none` is
Python's `None`. -/
inductive PyVal where
  | none
  | str (s : String)
  | int (n : Int)
  | bool (b : Bool)
deriving DecidableEq, Repr

/-- Python dict lookup `d.get(k, None)` over an association list. -/
def dictGet (d : List (String × PyVal)) (k : String) : Option PyVal :=
  match d with
  | [] => Option.none
  | (k₀, v) :: rest => if k₀ = k then some v else dictGet rest k

/-- A device as seen by `VeSyncDeviceHelper.get_feature`: its
dict-valued attributes (`details`, `config`, ...), by attribute name.
`getattr(device, dictionary, {})` is a lookup here, absent attributes
giving the empty dict. -/
structure AttrDevice where
  attrs : List (String × List (String × PyVal))

/-- `getattr(device, dictionary, {})`. -/
def getAttrDict (dev : AttrDevice) (dictionary : String) : Option (List (String × PyVal)) :=
  match dev.attrs.find? fun kv => kv.1 = dictionary with
  | Option.none => Option.none
  | some kv => some kv.2

/-- `VeSyncDeviceHelper.get_feature(device, dictionary, attribute)`:
`getattr(device, dictionary, {}).get(attribute, None)`; the `attribute`
argument is named `attr` here. -/
def get_feature (dev : AttrDevice) (dictionary attr : String) : PyVal :=
  match getAttrDict dev dictionary with
  | Option.none => PyVal.none
  | some d =>
    match dictGet d attr with
    | Option.none => PyVal.none
    | some v => v

/-- `VeSyncDeviceHelper.has_feature(device, dictionary, attribute)`:
`get_feature(...) is not None`. -/
def has_feature (dev : AttrDevice) (dictionary attr : String) : Bool :=
  get_feature dev dictionary attr != PyVal.none

/-- The model set computed on first use by
`VeSyncDeviceHelper.is_humidifier`: the union of all `models` alias lists
in `humid_features` with the table's keys. -/
def humidifierModels (humid_features : List (String × List String)) : List String :=
  (humid_features.map Prod.snd).flatten ++ humid_features.map Prod.fst

/-- `VeSyncDeviceHelper.is_humidifier(device_type)`: membership of the
model string in the computed model set (the memoized cache only avoids
recomputation and does not change the answer). -/
def is_humidifier (humid_features : List (String × List String)) (device_type : String) : Bool :=
  device_type ∈ humidifierModels humid_features

/-! ### Characterization of the bucketizer -/

lemma foldl_processFan (ih : String → Bool) (l : List Device) (b : Buckets) :
    l.foldl (processFan ih) b =
      { switches := b.switches ++ l
        fans := b.fans ++ l.filter fun d => !(ih d.device_type)
        lights := b.lights ++ l
        sensors := b.sensors ++ l
        humidifiers := b.humidifiers ++ l.filter fun d => ih d.device_type
        numbers := b.numbers ++ l
        binary_sensors := b.binary_sensors ++ l } := by
  induction l generalizing b with
  | nil => simp
  | cons x xs ih2 =>
    rw [List.foldl_cons, ih2]
    by_cases hx : ih x.device_type <;>
      simp [processFan, hx, List.filter_cons]

lemma foldl_processSwitch (l : List Device) (b : Buckets) :
    l.foldl processSwitch b =
      { b with
          switches := b.switches ++ l.filter fun s => !s.dimmable
          lights := b.lights ++ l.filter fun s => s.dimmable } := by
  induction l generalizing b with
  | nil => simp
  | cons x xs ih2 =>
    rw [List.foldl_cons, ih2]
    by_cases hx : x.dimmable <;>
      simp [processSwitch, hx, List.filter_cons]

/-- Closed form of the bucket dict `_async_process_devices` returns: each
bucket as a function of the manager's raw lists.  The emptiness guards
only gate logging; an empty source list contributes nothing either way. -/
lemma async_process_devices_buckets (ih : String → Bool) (m : Mgr) :
    (async_process_devices ih m).1 =
      { switches := m.fans ++ m.outlets ++ m.switches.filter fun s => !s.dimmable
        fans := m.fans.filter fun d => !(ih d.device_type)
        lights := m.fans ++ m.bulbs ++ m.switches.filter fun s => s.dimmable
        sensors := m.fans ++ m.outlets
        humidifiers := m.fans.filter fun d => ih d.device_type
        numbers := m.fans
        binary_sensors := m.fans } := by
  unfold async_process_devices
  split_ifs with h1 h2 h3 h4 <;>
    simp_all [foldl_processFan, foldl_processSwitch, emptyBuckets]

/-! ### Reconciler lemmas -/

/-- In every branch of `_add_new_devices`, the stored list afterwards is
the old list followed by the computed set difference. -/
lemma addNewDevices_fst (platform domain : String) (fresh old : List Device) :
    (addNewDevices platform domain fresh old).1 =
      old ++ (fresh.dedup.filter fun d => decide (d ∉ old)) := by
  simp only [addNewDevices]
  by_cases h1 : (List.filter (fun d => decide (d ∉ old)) fresh.dedup) = []
  · rw [if_pos h1, h1, List.append_nil]
  · rw [if_neg h1]
    by_cases h2 : old = []
    · rw [if_pos h2]
    · rw [if_neg h2]

/-- The old list survives a `_add_new_devices` call. -/
lemma subset_addNewDevices_fst (platform domain : String) (fresh old : List Device) :
    old ⊆ (addNewDevices platform domain fresh old).1 := by
  rw [addNewDevices_fst]
  exact List.subset_append_left _ _

/-- Every freshly classified device is in the stored list after a
`_add_new_devices` call. -/
lemma fresh_subset_addNewDevices_fst (platform domain : String) (fresh old : List Device) :
    fresh ⊆ (addNewDevices platform domain fresh old).1 := by
  rw [addNewDevices_fst]
  intro d hd
  by_cases hold : d ∈ old
  · exact List.mem_append_left _ hold
  · refine List.mem_append_right _ ?_
    rw [List.mem_filter, List.mem_dedup]
    exact ⟨hd, by simpa using hold⟩

/-- When every fresh device is already stored, `_add_new_devices` is a
no-op: stored list unchanged, no signal, no task. -/
lemma addNewDevices_stable (platform domain : String) (fresh old : List Device)
    (h : ∀ d ∈ fresh, d ∈ old) :
    addNewDevices platform domain fresh old = (old, [], []) := by
  have hfil : (fresh.dedup.filter fun d => decide (d ∉ old)) = [] := by
    rw [List.filter_eq_nil_iff]
    intro a ha
    simpa using h a (List.mem_dedup.mp ha)
  unfold addNewDevices
  rw [hfil]
  simp

/-- Running `_add_new_devices` a second time on the list produced by a
first run (same fresh classification) is a no-op. -/
lemma addNewDevices_idem (platform domain : String) (fresh old : List Device) :
    addNewDevices platform domain fresh (addNewDevices platform domain fresh old).1 =
      ((addNewDevices platform domain fresh old).1, [], []) :=
  addNewDevices_stable _ _ _ _ fun _ hd =>
    fresh_subset_addNewDevices_fst platform domain fresh old hd

/-- A second reconciliation of the same fresh buckets is a no-op. -/
lemma reconcile_idem (dd st : Buckets) :
    reconcile dd (reconcile dd st).state =
      { state := (reconcile dd st).state, signals := [], tasks := [] } := by
  unfold reconcile
  simp only [addNewDevices_idem]
  simp

/-- Bucket-wise containment of stored state: every stored device list of
`a` is contained in the corresponding list of `b`. -/
def bucketSub (a b : Buckets) : Prop :=
  a.switches ⊆ b.switches ∧ a.fans ⊆ b.fans ∧ a.lights ⊆ b.lights ∧
  a.sensors ⊆ b.sensors ∧ a.humidifiers ⊆ b.humidifiers ∧
  a.numbers ⊆ b.numbers ∧ a.binary_sensors ⊆ b.binary_sensors

lemma bucketSub_refl (a : Buckets) : bucketSub a a :=
  ⟨List.Subset.refl _, List.Subset.refl _, List.Subset.refl _, List.Subset.refl _,
   List.Subset.refl _, List.Subset.refl _, List.Subset.refl _⟩

lemma bucketSub_trans {a b c : Buckets} (h1 : bucketSub a b) (h2 : bucketSub b c) :
    bucketSub a c :=
  ⟨h1.1.trans h2.1, h1.2.1.trans h2.2.1, h1.2.2.1.trans h2.2.2.1,
   h1.2.2.2.1.trans h2.2.2.2.1, h1.2.2.2.2.1.trans h2.2.2.2.2.1,
   h1.2.2.2.2.2.1.trans h2.2.2.2.2.2.1, h1.2.2.2.2.2.2.trans h2.2.2.2.2.2.2⟩

/-- One reconciliation pass never drops a stored device, whether the poll
succeeds or raises. -/
lemma bucketSub_discoveryState (ih : String → Bool) (poll : Except Unit Mgr) (st : Buckets) :
    bucketSub st (discoveryState ih poll st) := by
  cases poll with
  | error e => exact bucketSub_refl st
  | ok m =>
    exact ⟨subset_addNewDevices_fst _ _ _ _, subset_addNewDevices_fst _ _ _ _,
      subset_addNewDevices_fst _ _ _ _, subset_addNewDevices_fst _ _ _ _,
      subset_addNewDevices_fst _ _ _ _, subset_addNewDevices_fst _ _ _ _,
      subset_addNewDevices_fst _ _ _ _⟩

/-! ### Concrete handles used to evaluate the definitions -/

/-- A plain fan handle (an air-purifier model string). -/
def devFan : Device := ⟨"fan-cid", "LV-PUR131S", false⟩

/-- A humidifier handle (a humidifier model string). -/
def devHum : Device := ⟨"hum-cid", "Classic300S", false⟩

/-- A second humidifier handle. -/
def devHum2 : Device := ⟨"hum2-cid", "Classic300S", false⟩

/-- Humidifier feature table with one entry and one alias list, shaped
like pyvesync's `humid_features`. -/
def humidTable : List (String × List String) :=
  [("Classic300S", ["Classic300S", "LUH-A601S-WUSB"])]

/-- The concrete classifier used in witnesses:
`is_humidifier humidTable`. -/
def ihEx : String → Bool := is_humidifier humidTable

/-- A manager that reports exactly one plain fan. -/
def mgrOneFan : Mgr := ⟨[devFan], [], [], []⟩

/-- A manager with one fan and one humidifier on the fans list. -/
def mgrFanHum : Mgr := ⟨[devFan, devHum], [], [], []⟩

/-- A manager with no devices at all. -/
def emptyMgr : Mgr := ⟨[], [], [], []⟩

/-- The flat dict that `async_setup_entry` actually stores at
`hass.data[DOMAIN]` for `mgrOneFan`: manager and bucket lists directly
under `DOMAIN`, with no config-entry identifier level. -/
def flatDomainData : List (String × DVal) :=
  [("manager", DVal.mgr mgrOneFan),
   ("binary_sensors", DVal.devs [devFan]), ("fans", DVal.devs [devFan]),
   ("humidifiers", DVal.devs []), ("lights", DVal.devs [devFan]),
   ("numbers", DVal.devs [devFan]), ("sensors", DVal.devs [devFan]),
   ("switches", DVal.devs [devFan])]

/-! ### Claims -/

/-- C2: every device on the manager's fans list is routed to exactly one
of the humidifier bucket (when `is_humidifier(device_type)` holds) or the
fan bucket (otherwise), never both, and is also appended to the numbers,
switches, lights, sensors and binary-sensors buckets. -/
theorem fans_routed_exclusively_and_to_companion_buckets
    (ih : String → Bool) (m : Mgr) (d : Device) (hd : d ∈ m.fans) :
    (ih d.device_type = true →
      d ∈ (async_process_devices ih m).1.humidifiers ∧
      d ∉ (async_process_devices ih m).1.fans) ∧
    (ih d.device_type = false →
      d ∈ (async_process_devices ih m).1.fans ∧
      d ∉ (async_process_devices ih m).1.humidifiers) ∧
    d ∈ (async_process_devices ih m).1.numbers ∧
    d ∈ (async_process_devices ih m).1.switches ∧
    d ∈ (async_process_devices ih m).1.lights ∧
    d ∈ (async_process_devices ih m).1.sensors ∧
    d ∈ (async_process_devices ih m).1.binary_sensors := by
  simp only [async_process_devices_buckets]
  refine ⟨?_, ?_, hd, ?_, ?_, List.mem_append_left _ hd, hd⟩
  · intro h
    constructor
    · exact List.mem_filter.mpr ⟨hd, by simp [h]⟩
    · intro hmem
      have := (List.mem_filter.mp hmem).2
      simp [h] at this
  · intro h
    constructor
    · exact List.mem_filter.mpr ⟨hd, by simp [h]⟩
    · intro hmem
      have := (List.mem_filter.mp hmem).2
      simp [h] at this
  · exact List.mem_append_left _ (List.mem_append_left _ hd)
  · exact List.mem_append_left _ (List.mem_append_left _ hd)

/-- Witness for C2 at a concrete humidifier and a concrete plain fan. -/
theorem fans_routed_exclusively_and_to_companion_buckets_witness :
    (devHum ∈ (async_process_devices ihEx mgrFanHum).1.humidifiers ∧
     devHum ∉ (async_process_devices ihEx mgrFanHum).1.fans) ∧
    (devFan ∈ (async_process_devices ihEx mgrFanHum).1.fans ∧
     devFan ∉ (async_process_devices ihEx mgrFanHum).1.humidifiers) :=
  ⟨(fans_routed_exclusively_and_to_companion_buckets ihEx mgrFanHum devHum
      (by decide)).1 (by decide),
   (fans_routed_exclusively_and_to_companion_buckets ihEx mgrFanHum devFan
      (by decide)).2.1 (by decide)⟩

/-- C3: running the reconciler twice in succession with the manager's
device lists unchanged makes the second pass a no-op: no signal, no task,
stored buckets unchanged. -/
theorem reconciliation_idempotent (ih : String → Bool) (m : Mgr) (st : Buckets) :
    discoverySignals ih (Except.ok m) (discoveryState ih (Except.ok m) st) = [] ∧
    discoveryTasks ih (Except.ok m) (discoveryState ih (Except.ok m) st) = [] ∧
    discoveryState ih (Except.ok m) (discoveryState ih (Except.ok m) st) =
      discoveryState ih (Except.ok m) st := by
  have h := reconcile_idem (async_process_devices ih m).1 st
  refine ⟨?_, ?_, ?_⟩ <;>
    simp [discoverySignals, discoveryTasks, discoveryState,
      async_new_device_discovery, h]

/-- C4: on an already-active bucket with a non-empty set of new devices,
`_add_new_devices` appends exactly the new devices to the stored list,
sends exactly one discovery signal for that bucket carrying exactly the
new devices (each of which is freshly classified and not already known),
and schedules no setup task. -/
theorem active_bucket_signals_only_new_devices
    (platform domain : String) (fresh old : List Device)
    (hold : old ≠ [])
    (hnew : (fresh.dedup.filter fun d => decide (d ∉ old)) ≠ []) :
    addNewDevices platform domain fresh old =
      (old ++ (fresh.dedup.filter fun d => decide (d ∉ old)),
       [("vesync_discovery_" ++ domain, fresh.dedup.filter fun d => decide (d ∉ old))],
       []) ∧
    ∀ d ∈ (fresh.dedup.filter fun d => decide (d ∉ old)), d ∈ fresh ∧ d ∉ old := by
  constructor
  · simp only [addNewDevices]
    rw [if_neg hnew, if_neg hold]
  · intro d hd
    rw [List.mem_filter, List.mem_dedup] at hd
    exact ⟨hd.1, by simpa using hd.2⟩

/-- Witness for C4: a second humidifier joins an active humidifier
bucket; only the new device is in the signal payload. -/
theorem active_bucket_signals_only_new_devices_witness :
    addNewDevices "humidifier" "humidifiers" [devHum, devHum2] [devHum] =
      ([devHum] ++ (List.dedup [devHum, devHum2]).filter (fun d => decide (d ∉ [devHum])),
       [("vesync_discovery_" ++ "humidifiers",
         (List.dedup [devHum, devHum2]).filter fun d => decide (d ∉ [devHum]))],
       []) :=
  (active_bucket_signals_only_new_devices "humidifier" "humidifiers"
    [devHum, devHum2] [devHum] (by decide) (by decide)).1

/-- C5: on a previously empty bucket, a pass that finds at least one
device stores the full freshly-found device list (set-equal to the fresh
classification), schedules exactly one setup task for the corresponding
platform, and sends no discovery signal. -/
theorem empty_bucket_setup_no_signal
    (platform domain : String) (fresh : List Device) (hfresh : fresh ≠ []) :
    addNewDevices platform domain fresh [] = (fresh.dedup, [], [platform]) ∧
    (∀ d, d ∈ fresh.dedup ↔ d ∈ fresh) ∧
    fresh.dedup ≠ [] := by
  have hfil : (fresh.dedup.filter fun d => decide (d ∉ ([] : List Device))) = fresh.dedup := by
    apply List.filter_eq_self.mpr
    intro a _
    simp
  have hded : fresh.dedup ≠ [] := by
    intro h
    exact hfresh ((List.dedup_eq_nil fresh).mp h)
  refine ⟨?_, fun d => List.mem_dedup, hded⟩
  simp only [addNewDevices]
  rw [hfil, if_neg hded]
  simp

/-- Witness for C5: the first fan found goes through forward setup for
the fan platform with no signal. -/
theorem empty_bucket_setup_no_signal_witness :
    addNewDevices "fan" "fans" [devFan] [] = (List.dedup [devFan], [], ["fan"]) :=
  (empty_bucket_setup_no_signal "fan" "fans" [devFan] (by decide)).1

/-- C6: if the manager poll raises during a reconciliation pass, the pass
aborts with the exception propagated, every stored bucket list unchanged,
zero discovery signals and zero setup tasks. -/
theorem poll_failure_leaves_state_untouched (ih : String → Bool) (st : Buckets) :
    async_new_device_discovery ih (Except.error ()) st = Except.error () ∧
    discoveryState ih (Except.error ()) st = st ∧
    discoverySignals ih (Except.error ()) st = [] ∧
    discoveryTasks ih (Except.error ()) st = [] :=
  ⟨rfl, rfl, rfl, rfl⟩

/-- C7: when login returns false, setup fails, logs one error line, and
creates no state: no poll, no stored buckets, no forwarded platform, no
registered service. -/
theorem login_failure_creates_no_state (ih : String → Bool) (m : Mgr) :
    (async_setup_entry ih false m).ok = false ∧
    (async_setup_entry ih false m).errorLogs = ["Unable to login to the VeSync server"] ∧
    (async_setup_entry ih false m).domainData = none ∧
    (async_setup_entry ih false m).polled = false ∧
    (async_setup_entry ih false m).tasks = [] ∧
    (async_setup_entry ih false m).serviceRegistered = false :=
  ⟨rfl, rfl, rfl, rfl, rfl, rfl⟩

/-- C9: bucket growth is monotonic — across any sequence of
reconciliation passes, every device stored in a bucket before the passes
is still stored afterwards. -/
theorem buckets_grow_monotonically (ih : String → Bool) (polls : List (Except Unit Mgr))
    (st : Buckets) :
    bucketSub st (runPasses ih polls st) := by
  induction polls generalizing st with
  | nil => exact bucketSub_refl st
  | cons p ps ih2 =>
    exact bucketSub_trans (bucketSub_discoveryState ih p st)
      (ih2 (discoveryState ih p st))

/-- Witness for C9: a previously stored humidifier survives a pass that
discovers more devices. -/
theorem buckets_grow_monotonically_witness :
    devHum2 ∈ (runPasses ihEx [Except.ok mgrFanHum]
      { emptyBuckets with humidifiers := [devHum2] }).humidifiers :=
  (buckets_grow_monotonically ihEx [Except.ok mgrFanHum]
    { emptyBuckets with humidifiers := [devHum2] }).2.2.2.2.1 (by decide)

/-- C10: `get_feature` returns `None` without raising when the attribute
is absent or the dict lacks the key; `has_feature` is true exactly when
`get_feature` is not `None`; a key bound to `None` behaves as absent. -/
theorem feature_helpers_agree (dev : AttrDevice) (dictionary attr : String) :
    (getAttrDict dev dictionary = Option.none →
      get_feature dev dictionary attr = PyVal.none) ∧
    (∀ d, getAttrDict dev dictionary = some d → dictGet d attr = Option.none →
      get_feature dev dictionary attr = PyVal.none) ∧
    (has_feature dev dictionary attr = true ↔
      get_feature dev dictionary attr ≠ PyVal.none) ∧
    (∀ d, getAttrDict dev dictionary = some d → dictGet d attr = some PyVal.none →
      has_feature dev dictionary attr = false) := by
  refine ⟨?_, ?_, ?_, ?_⟩
  · intro h
    simp [get_feature, h]
  · intro d h1 h2
    simp [get_feature, h1, h2]
  · simp [has_feature, bne_iff_ne]
  · intro d h1 h2
    simp [has_feature, get_feature, h1, h2]

/-- A device whose `details` dict holds a real value and a `None`-valued
key, shaped like the helper tests' mock. -/
def devAttrs : AttrDevice :=
  ⟨[("details", [("humidity", PyVal.int 40), ("night_light", PyVal.none)])]⟩

/-- Witness for C10 at concrete dicts: a `None`-bound key reads as
missing, and a missing attribute reads as `None`. -/
theorem feature_helpers_agree_witness :
    has_feature devAttrs "details" "night_light" = false ∧
    get_feature devAttrs "config" "auto_stop" = PyVal.none :=
  ⟨(feature_helpers_agree devAttrs "details" "night_light").2.2.2
      [("humidity", PyVal.int 40), ("night_light", PyVal.none)] rfl rfl,
   (feature_helpers_agree devAttrs "config" "auto_stop").1 rfl⟩

/-- C8 counterexample: with an empty manager, `_async_process_devices`
emits no log line at all — not one "0 ... found" line per category — so
logging does not happen on every pass. -/
theorem log_lines_missing_on_empty_pass :
    (async_process_devices (fun _ => false) emptyMgr).2 = [] ∧
    (async_process_devices (fun _ => false) emptyMgr).2 ≠
      [logCount 0 "fans", logCount 0 "humidifiers", logCount 0 "lights",
       logCount 0 "outlets", logCount 0 "switches"] :=
  ⟨rfl, by decide⟩

/-- C8 amended: the count log lines appear in the fixed order fans,
humidifiers, lights, outlets, switches, but each group only on passes
where the corresponding manager source list is non-empty (the fans and
humidifiers lines are both gated on the manager's fans list). -/
theorem log_lines_per_nonempty_category (ih : String → Bool) (m : Mgr) :
    (async_process_devices ih m).2 =
      (if m.fans = [] then []
       else
         [logCount (m.fans.filter fun d => !(ih d.device_type)).length "fans",
          logCount (m.fans.filter fun d => ih d.device_type).length "humidifiers"]) ++
      (if m.bulbs = [] then [] else [logCount m.bulbs.length "lights"]) ++
      (if m.outlets = [] then [] else [logCount m.outlets.length "outlets"]) ++
      (if m.switches = [] then [] else [logCount m.switches.length "switches"]) := by
  unfold async_process_devices
  split_ifs with h1 h2 h3 h4 <;>
    simp_all [foldl_processFan, emptyBuckets]

/-- C1 (code bug): after a successful login, `async_setup_entry` stores
the manager and all bucket lists directly under `hass.data[DOMAIN]` with
no config-entry-identifier level, so `get_domain_data` (which reads
`hass.data[DOMAIN][entry_id][key]`) finds nothing for the entry, and
`async_unload_entry`'s pop of the entry identifier removes nothing. -/
theorem setup_stores_state_flat_not_by_entry_id :
    (async_setup_entry (fun _ => false) true mgrOneFan).ok = true ∧
    (async_setup_entry (fun _ => false) true mgrOneFan).domainData = some flatDomainData ∧
    lookupKey flatDomainData "fans" = some (DVal.devs [devFan]) ∧
    lookupKey flatDomainData "mock-entry-id" = Option.none ∧
    get_domain_data (some flatDomainData) "mock-entry-id" "fans" = Except.ok Option.none ∧
    async_unload_entry flatDomainData "mock-entry-id" true = (true, flatDomainData) :=
  ⟨rfl, rfl, rfl, rfl, rfl, rfl⟩

end VeSync
